import Mathlib

/-!
Shallow embedding of the SwingScoreEngine scoring pipeline
(swing_score_engine.py) and the sentiment-adjustment layer of the
orchestrating app (app_new.py).

Prices and indicator values are modelled as rationals; Python ints are
modelled as integers.  The external indicator library (pandas_ta) is a
black box producing one value per indicator, so each factor function
takes the extracted last-bar indicator values as `Option` parameters
(`none` models a NaN from insufficient history).  Python exceptions
that the source catches (empty series indexing, division by zero) are
modelled as explicit error branches that reproduce the caught-path
results of the source.
-/

namespace SwingScore

/-- Model of pandas `iloc[-k]` on the close column: element `k` places
from the end of the list, meaningful whenever `k ≤ l.length`. -/
def iloc (l : List ℚ) (k : ℕ) : ℚ :=
  l.getD (l.length - k) 0

/-- Round-half-to-even on rationals, the semantics of Python 3
`round` at integer precision. -/
def rndHalfEven (q : ℚ) : ℤ :=
  let f := ⌊q⌋
  if q - f < 1/2 then f
  else if 1/2 < q - f then f + 1
  else if Even f then f else f + 1

/-- Python `round(x, 1)`: round to one decimal place, half to even. -/
def round1 (q : ℚ) : ℚ :=
  (rndHalfEven (q * 10) : ℚ) / 10

/-- Result of `calculate_technicals`: the clamped score plus the
detail flags the claims refer to (`in_uptrend`, whether the downtrend
cap was recorded, and whether the except-branch fired). -/
structure TechResult where
  score : ℤ
  inUptrend : Option Bool
  capApplied : Bool
  error : Bool
deriving DecidableEq

/-- RSI dip bonus of `calculate_technicals` (the elif chain on `rsi`);
`none` models `pd.isna(rsi)`. -/
def rsiBonus : Option ℚ → ℤ
  | none => 0
  | some r =>
    if 70 < r then -20
    else if 50 ≤ r ∧ r ≤ 70 then 10
    else if 30 ≤ r ∧ r < 50 then 30
    else 10

/-- EMA proximity bonus of `calculate_technicals` for a defined
`ema_20` value `e`. -/
def emaBonus (price e : ℚ) : ℤ :=
  let d := (price - e) / e * 100
  if |d| ≤ 2 then 20
  else if 10 < d then -10
  else if d < -10 then -10
  else 0

/-- EMA proximity bonus with the `pd.isna(ema_20)` guard. -/
def emaBonusOpt (price : ℚ) : Option ℚ → ℤ
  | none => 0
  | some e => emaBonus price e

/-- `SwingScoreEngine.calculate_technicals`: trend filter (base 50 cap
100 above the 200 SMA, base 0 cap 40 otherwise, base 25 when the SMA
is NaN), RSI dip bonus, EMA proximity bonus, and the final clamp
`max(0, min(score, max_score_cap))`.  An empty series (the `iloc[-1]`
lookup) or a zero `ema_20` (the division) raises in the source and is
caught, yielding score 0. -/
def calculate_technicals (closes : List ℚ) (sma200 ema20 rsi : Option ℚ) :
    TechResult :=
  match closes.getLast? with
  | none => ⟨0, none, false, true⟩
  | some price =>
    let tf : ℤ × ℤ × Option Bool :=
      match sma200 with
      | some s => if s < price then (50, 100, some true) else (0, 40, some false)
      | none => (25, 100, none)
    match ema20 with
    | some e =>
      if e = 0 then ⟨0, tf.2.2, false, true⟩
      else
        ⟨max 0 (min (tf.1 + rsiBonus rsi + emaBonus price e) tf.2.1),
         tf.2.2, tf.2.1 < 100, false⟩
    | none =>
      ⟨max 0 (min (tf.1 + rsiBonus rsi) tf.2.1), tf.2.2, tf.2.1 < 100, false⟩

/-- `SwingScoreEngine.calculate_market_regime`: +15 when the market
proxy closes above its 50 SMA, VIX band points (+15 below 20, −20
above 30, else 0, 0 when absent), floored at 0.  An empty proxy series
raises at `iloc[-1]` and is caught with the accumulated score 0. -/
def calculate_market_regime (spyCloses : List ℚ) (spySma50 vix : Option ℚ) :
    ℤ :=
  match spyCloses.getLast? with
  | none => 0
  | some cur =>
    let trendPts : ℤ :=
      match spySma50 with
      | some m => if m < cur then 15 else 0
      | none => 0
    let vixPts : ℤ :=
      match vix with
      | some v => if v < 20 then 15 else if 30 < v then -20 else 0
      | none => 0
    max 0 (trendPts + vixPts)

/-- `SwingScoreEngine.calculate_relative_strength`, returning
(score, kill_switch, internal-error flag).  The 5-bar trailing returns
compare `iloc[-1]` against `iloc[-6]`; a series shorter than 6 bars or
a zero reference close raises in the source and is caught, leaving
score 0 and kill_switch False. -/
def calculate_relative_strength (stock spy : List ℚ) : ℤ × Bool × Bool :=
  if 6 ≤ stock.length ∧ 6 ≤ spy.length then
    let s1 := iloc stock 1
    let s6 := iloc stock 6
    let p1 := iloc spy 1
    let p6 := iloc spy 6
    if s6 = 0 ∨ p6 = 0 then (0, false, true)
    else
      let stockReturn := (s1 - s6) / s6 * 100
      let spyReturn := (p1 - p6) / p6 * 100
      if stockReturn < 0 ∧ 0 < spyReturn then (0, true, false)
      else if spyReturn < stockReturn then (20, false, false)
      else (0, false, false)
  else (0, false, true)

/-- The 5-bar trailing return the relative-strength factor computes,
as a standalone definition for stating claims. -/
def ret5 (l : List ℚ) : ℚ :=
  (iloc l 1 - iloc l 6) / iloc l 6 * 100

/-- `TradeSetup` dict of `calculate_trade_setup`, with the `error`
string modelled as a Boolean presence flag. -/
structure TradeSetup where
  buy_min : ℚ
  buy_max : ℚ
  sell_stop : ℚ
  target_safe : ℚ
  target_safe_pct : ℚ
  target_aggro : ℚ
  target_aggro_pct : ℚ
  prob_safe : ℤ
  prob_aggro : ℤ
  volatility_supported : Bool
  recommended : String
  error : Bool
deriving DecidableEq

/-- The fully-shaped default structure the except-branch of
`calculate_trade_setup` returns. -/
def defaultTradeSetupOnError : TradeSetup :=
  { buy_min := 0
    buy_max := 0
    sell_stop := 0
    target_safe := 0
    target_safe_pct := 4
    target_aggro := 0
    target_aggro_pct := 10
    prob_safe := 75
    prob_aggro := 40
    volatility_supported := true
    recommended := "safe"
    error := true }

/-- `SwingScoreEngine.calculate_trade_setup`: entry zone around the 20
EMA (price fallback), stop at `max(SMA200*0.99, price*0.92)`, safe
target +4% retargeted just under a nearby 50 SMA resistance,
aggressive target +10% with an ATR feasibility flag, and the fixed
probability policy.  An empty series (`iloc[-1]`), a zero last close
(the percent divisions) or a zero ATR (the ATR-ratio division) raises
in the source and is caught, returning the default structure. -/
def calculate_trade_setup (closes : List ℚ) (ema20 sma50 sma200 atr : Option ℚ) :
    TradeSetup :=
  match closes.getLast? with
  | none => defaultTradeSetupOnError
  | some p =>
    if p = 0 ∨ atr = some 0 then defaultTradeSetupOnError
    else
      let buyMin : ℚ := match ema20 with
        | some e => e * (98/100)
        | none => p * (98/100)
      let buyMax : ℚ := match ema20 with
        | some e => e * (102/100)
        | none => p * (102/100)
      let sellStop : ℚ := match sma200 with
        | some s => max (s * (99/100)) (p * (92/100))
        | none => p * (92/100)
      let targetSafe : ℚ := match sma50 with
        | some m =>
          if p < m ∧ (m - p) / p < 4/100 then m * (995/1000)
          else p * (104/100)
        | none => p * (104/100)
      let targetSafePct : ℚ := (targetSafe - p) / p * 100
      let targetAggro : ℚ := p * (110/100)
      let volSupported : Bool := match atr with
        | some a => if 5 < (targetAggro - p) / a then false else true
        | none => true
      let targetAggroPct : ℚ := (targetAggro - p) / p * 100
      let probSafe : ℤ := match sma200 with
        | some s => if s < p then min 85 (75 + 10) else 75
        | none => 75
      let probAggroBase : ℤ := match sma200 with
        | some s => if s < p then min 55 (40 + 10) else 40
        | none => 40
      let probAggro : ℤ :=
        if volSupported then probAggroBase else max 20 (probAggroBase - 15)
      { buy_min := buyMin
        buy_max := buyMax
        sell_stop := sellStop
        target_safe := targetSafe
        target_safe_pct := round1 targetSafePct
        target_aggro := targetAggro
        target_aggro_pct := round1 targetAggroPct
        prob_safe := probSafe
        prob_aggro := probAggro
        volatility_supported := volSupported
        recommended := "safe"
        error := false }

/-- `SwingScoreEngine._get_verdict`: kill switch forces the
relative-weakness verdict, otherwise the 80/60/40 threshold chain. -/
def get_verdict (score : ℤ) (killSwitch : Bool) : String :=
  if killSwitch then "AVOID (Rel. Weakness)"
  else if 80 ≤ score then "STRONG BUY"
  else if 60 ≤ score then "BUY"
  else if 40 ≤ score then "HOLD"
  else "AVOID"

/-- The `ScoreResult` dict of `calculate_score`: composite score,
verdict, whether the kill-switch `reason` key is present, the three
sub-scores of the breakdown, last close, and the trade setup (absent
on the kill-switch path). -/
structure ScoreResult where
  score : ℤ
  verdict : String
  reasonSet : Bool
  technicals : ℤ
  market_regime : ℤ
  relative_strength : ℤ
  current_price : ℚ
  trade_setup : Option TradeSetup
deriving DecidableEq

/-- `SwingScoreEngine.calculate_score` on already-fetched series: runs
the three factor scorers, short-circuits on the kill switch, else sums
the sub-scores, derives the verdict and attaches the trade setup.  The
indicator parameters are the pandas_ta values of the stock series
(`sma200`, `ema20`, `rsi`, `sma50stk`, `atr`), the market-proxy 50 SMA
and the VIX close (`none` when the VIX fetch failed or the value is
NaN).  An empty stock series makes the source raise at `iloc[-1]` and
return its top-level error dict, modelled as `none`. -/
def calculate_score (stockCloses spyCloses : List ℚ)
    (sma200 ema20 rsi sma50stk atr : Option ℚ) (spySma50 vix : Option ℚ) :
    Option ScoreResult :=
  match stockCloses.getLast? with
  | none => none
  | some price =>
    let tech := calculate_technicals stockCloses sma200 ema20 rsi
    let regime := calculate_market_regime spyCloses spySma50 vix
    let rel := calculate_relative_strength stockCloses spyCloses
    if rel.2.1 then
      some { score := 0
             verdict := get_verdict 0 true
             reasonSet := true
             technicals := tech.score
             market_regime := regime
             relative_strength := 0
             current_price := price
             trade_setup := none }
    else
      let finalScore := tech.score + regime + rel.1
      some { score := finalScore
             verdict := get_verdict finalScore false
             reasonSet := false
             technicals := tech.score
             market_regime := regime
             relative_strength := rel.1
             current_price := price
             trade_setup :=
               some (calculate_trade_setup stockCloses ema20 sma50stk sma200 atr) }

/-- Sentiment-point mapping of `analyze_ticker` in app_new.py:
`max(0, min(10, int(round(((s + 10) / 20) * 10))))`. -/
def appAiPoints (s : ℤ) : ℤ :=
  max 0 (min 10 (rndHalfEven (((s : ℚ) + 10) / 20 * 10)))

/-- Adjusted composite of `analyze_ticker`: engine score plus
sentiment points, capped at 100. -/
def appAdjustedScore (engineScore s : ℤ) : ℤ :=
  min 100 (engineScore + appAiPoints s)

/-- Verdict chain of `analyze_ticker` in app_new.py, which adds a
below-20 "STRONG SELL" band to the engine thresholds. -/
def appVerdict (killSwitch : Bool) (score : ℤ) : String :=
  if killSwitch then "AVOID (Rel. Weakness)"
  else if 80 ≤ score then "STRONG BUY"
  else if 60 ≤ score then "BUY"
  else if 40 ≤ score then "HOLD"
  else if 20 ≤ score then "AVOID"
  else "STRONG SELL"

/-! Helper lemmas about the half-even rounding model. -/

lemma floor_le_rndHalfEven (q : ℚ) : ⌊q⌋ ≤ rndHalfEven q := by
  unfold rndHalfEven
  dsimp only
  split
  · exact le_refl _
  · split
    · omega
    · split <;> omega

lemma rndHalfEven_le_floor_add_one (q : ℚ) : rndHalfEven q ≤ ⌊q⌋ + 1 := by
  unfold rndHalfEven
  dsimp only
  split
  · omega
  · split
    · omega
    · split <;> omega

lemma lt_of_rndHalfEven_le (q : ℚ) (n : ℤ) (h : rndHalfEven q ≤ n) :
    q < n + 1 := by
  have h1 : ⌊q⌋ ≤ n := le_trans (floor_le_rndHalfEven q) h
  have h2 : q < ⌊q⌋ + 1 := Int.lt_floor_add_one q
  have h3 : (⌊q⌋ : ℚ) + 1 ≤ (n : ℚ) + 1 := by exact_mod_cast by omega
  linarith

lemma rndHalfEven_le_of_le (q : ℚ) (n : ℤ) (h : q ≤ n) : rndHalfEven q ≤ n := by
  have hf : ⌊q⌋ ≤ n := by
    have := Int.floor_mono h
    rwa [Int.floor_intCast] at this
  by_cases hq : ⌊q⌋ = n
  · have hge : (n : ℚ) ≤ q := hq ▸ Int.floor_le q
    have hqe : q = (n : ℚ) := le_antisymm h hge
    unfold rndHalfEven
    dsimp only
    rw [if_pos]
    · omega
    · rw [hqe, Int.floor_intCast]
      norm_num
  · have : ⌊q⌋ + 1 ≤ n := by omega
    exact le_trans (rndHalfEven_le_floor_add_one q) this

lemma le_rndHalfEven_of_le (q : ℚ) (n : ℤ) (h : (n : ℚ) ≤ q) :
    n ≤ rndHalfEven q := le_trans (Int.le_floor.2 h) (floor_le_rndHalfEven q)

/-! Bounds of the three factor scorers. -/

lemma calculate_technicals_score_bounds (closes : List ℚ)
    (sma200 ema20 rsi : Option ℚ) :
    0 ≤ (calculate_technicals closes sma200 ema20 rsi).score ∧
      (calculate_technicals closes sma200 ema20 rsi).score ≤ 100 := by
  unfold calculate_technicals
  split
  · simp
  · cases sma200 <;> cases ema20 <;> dsimp only <;> (repeat' split) <;>
      first | (refine ⟨?_, ?_⟩ <;> omega) | simp

lemma calculate_market_regime_bounds (spyCloses : List ℚ)
    (spySma50 vix : Option ℚ) :
    0 ≤ calculate_market_regime spyCloses spySma50 vix ∧
      calculate_market_regime spyCloses spySma50 vix ≤ 30 := by
  unfold calculate_market_regime
  split
  · omega
  · cases spySma50 <;> cases vix <;> dsimp only <;> (repeat' split) <;> omega

lemma calculate_relative_strength_fst (stock spy : List ℚ) :
    (calculate_relative_strength stock spy).1 = 0 ∨
      (calculate_relative_strength stock spy).1 = 20 := by
  unfold calculate_relative_strength
  dsimp only
  split_ifs <;> simp

/-- Claim C5: for every input series whose last close is strictly
below its 200-period SMA, the technical factor returns a score of at
most 40, no matter how large the RSI and EMA-proximity bonuses are. -/
theorem claim_C5_downtrend_cap (closes : List ℚ) (s : ℚ) (ema20 rsi : Option ℚ)
    (p : ℚ) (h : closes.getLast? = some p) (hps : p < s) :
    (calculate_technicals closes (some s) ema20 rsi).score ≤ 40 := by
  unfold calculate_technicals
  rw [h]
  dsimp only
  rw [if_neg (by linarith : ¬ s < p)]
  cases ema20 <;> dsimp only
  · omega
  · split <;> dsimp only <;> omega

/-- Witness for C5 at a concrete downtrend input. -/
theorem claim_C5_downtrend_cap_witness :
    ([(1 : ℚ)].getLast? = some 1) ∧ ((1 : ℚ) < 2) ∧
      (calculate_technicals [(1 : ℚ)] (some 2) none none).score ≤ 40 :=
  ⟨by decide, by norm_num,
    claim_C5_downtrend_cap [(1 : ℚ)] 2 none none 1 (by decide) (by norm_num)⟩

/-- Claim C6: for every input series with last close strictly above
its 200-period SMA, RSI exactly 40, and last close within 1% of the
20-period EMA, the technical score is exactly 100 = 50 + 30 + 20. -/
theorem claim_C6_sweet_spot (closes : List ℚ) (s e p : ℚ)
    (h : closes.getLast? = some p) (hup : s < p) (he : 0 < e)
    (hd : |(p - e) / e * 100| ≤ 1) :
    (calculate_technicals closes (some s) (some e) (some 40)).score = 100 := by
  unfold calculate_technicals
  rw [h]
  dsimp only
  rw [if_pos hup, if_neg (ne_of_gt he)]
  have h40 : rsiBonus (some 40) = 30 := by norm_num [rsiBonus]
  have hem : emaBonus p e = 20 := by
    unfold emaBonus
    rw [if_pos (by linarith : |(p - e) / e * 100| ≤ 2)]
  rw [h40, hem]
  decide

/-- Witness for C6 at a concrete uptrend pullback input. -/
theorem claim_C6_sweet_spot_witness :
    ([(10 : ℚ)].getLast? = some 10) ∧ ((5 : ℚ) < 10) ∧ ((0 : ℚ) < 10) ∧
      (|((10 : ℚ) - 10) / 10 * 100| ≤ 1) ∧
      (calculate_technicals [(10 : ℚ)] (some 5) (some 10) (some 40)).score = 100 :=
  ⟨by decide, by norm_num, by norm_num, by norm_num,
    claim_C6_sweet_spot [(10 : ℚ)] 5 10 10 (by decide) (by norm_num)
      (by norm_num) (by norm_num)⟩

/-- Claim C9: when the last close equals the 200-period SMA exactly,
the technical factor takes the downtrend branch: the uptrend flag is
false, the cap is recorded, and the score is the downtrend formula
with base 0 clamped to [0, 40]. -/
theorem claim_C9_sma_equality_downtrend (closes : List ℚ) (p : ℚ)
    (ema20 rsi : Option ℚ) (h : closes.getLast? = some p)
    (hema : ∀ e, ema20 = some e → e ≠ 0) :
    (calculate_technicals closes (some p) ema20 rsi).inUptrend = some false ∧
      (calculate_technicals closes (some p) ema20 rsi).capApplied = true ∧
      (calculate_technicals closes (some p) ema20 rsi).score =
        max 0 (min (0 + rsiBonus rsi + emaBonusOpt p ema20) 40) := by
  unfold calculate_technicals
  rw [h]
  dsimp only
  rw [if_neg (lt_irrefl p)]
  cases ema20 with
  | none =>
    dsimp only [emaBonusOpt]
    exact ⟨rfl, by decide, by omega⟩
  | some e =>
    dsimp only [emaBonusOpt]
    rw [if_neg (hema e rfl)]
    exact ⟨rfl, rfl, rfl⟩

/-- Witness for C9 at a concrete input with close equal to the SMA. -/
theorem claim_C9_sma_equality_downtrend_witness :
    ([(5 : ℚ)].getLast? = some 5) ∧
      ((calculate_technicals [(5 : ℚ)] (some 5) none none).inUptrend = some false ∧
        (calculate_technicals [(5 : ℚ)] (some 5) none none).capApplied = true ∧
        (calculate_technicals [(5 : ℚ)] (some 5) none none).score =
          max 0 (min (0 + rsiBonus none + emaBonusOpt 5 none) 40)) :=
  ⟨by decide,
    claim_C9_sma_equality_downtrend [(5 : ℚ)] 5 none none (by decide)
      (by intro e he; cases he)⟩

/-- Claim C2: whenever the 5-bar trailing return of the ticker is
negative and that of the market proxy is positive, the aggregator
returns score 0, verdict "AVOID (Rel. Weakness)", a reason, and a
relative-strength sub-score of 0, regardless of the technical and
regime sub-scores. -/
theorem claim_C2_kill_switch (stock spy : List ℚ)
    (sma200 ema20 rsi sma50stk atr spySma50 vix : Option ℚ) (r : ScoreResult)
    (hs : 6 ≤ stock.length) (hp : 6 ≤ spy.length)
    (hs6 : iloc stock 6 ≠ 0) (hp6 : iloc spy 6 ≠ 0)
    (hneg : ret5 stock < 0) (hpos : 0 < ret5 spy)
    (hr : calculate_score stock spy sma200 ema20 rsi sma50stk atr spySma50 vix
        = some r) :
    r.score = 0 ∧ r.verdict = "AVOID (Rel. Weakness)" ∧ r.reasonSet = true ∧
      r.relative_strength = 0 := by
  unfold ret5 at hneg hpos
  have hks : calculate_relative_strength stock spy = (0, true, false) := by
    unfold calculate_relative_strength
    rw [if_pos ⟨hs, hp⟩]
    dsimp only
    rw [if_neg (by push_neg; exact ⟨hs6, hp6⟩ :
          ¬ (iloc stock 6 = 0 ∨ iloc spy 6 = 0))]
    rw [if_pos ⟨hneg, hpos⟩]
  have hne : stock ≠ [] := by
    intro hnil
    rw [hnil] at hs
    simp at hs
  obtain ⟨q, hq⟩ := Option.isSome_iff_exists.mp
    ((List.getLast?_isSome).mpr hne)
  unfold calculate_score at hr
  rw [hq] at hr
  dsimp only at hr
  rw [hks] at hr
  simp only [if_true, Option.some.injEq] at hr
  subst hr
  exact ⟨rfl, rfl, rfl, rfl⟩

/-- The concrete kill-switch result used to witness C2. -/
def killSwitchSampleResult : ScoreResult :=
  { score := 0, verdict := "AVOID (Rel. Weakness)", reasonSet := true,
    technicals := 25, market_regime := 0, relative_strength := 0,
    current_price := 1/2, trade_setup := none }

/-- Witness for C2: a ticker down 50% over 5 bars while the proxy is
up 100%. -/
theorem claim_C2_kill_switch_witness :
    (6 ≤ ([1, 1, 1, 1, 1, 1/2] : List ℚ).length) ∧
      (6 ≤ ([1, 1, 1, 1, 1, 2] : List ℚ).length) ∧
      (iloc [1, 1, 1, 1, 1, 1/2] 6 ≠ 0) ∧ (iloc [1, 1, 1, 1, 1, 2] 6 ≠ 0) ∧
      (ret5 [1, 1, 1, 1, 1, 1/2] < 0) ∧ (0 < ret5 [1, 1, 1, 1, 1, 2]) ∧
      (calculate_score [1, 1, 1, 1, 1, 1/2] [1, 1, 1, 1, 1, 2]
          none none none none none none none = some killSwitchSampleResult) ∧
      (killSwitchSampleResult.score = 0 ∧
        killSwitchSampleResult.verdict = "AVOID (Rel. Weakness)" ∧
        killSwitchSampleResult.reasonSet = true ∧
        killSwitchSampleResult.relative_strength = 0) :=
  ⟨by norm_num, by norm_num, by norm_num [iloc], by norm_num [iloc],
    by norm_num [ret5, iloc], by norm_num [ret5, iloc],
    by norm_num [killSwitchSampleResult, calculate_score,
      calculate_technicals, calculate_market_regime,
      calculate_relative_strength, iloc, get_verdict, rsiBonus],
    claim_C2_kill_switch [1, 1, 1, 1, 1, 1/2] [1, 1, 1, 1, 1, 2]
      none none none none none none none killSwitchSampleResult
      (by norm_num) (by norm_num) (by norm_num [iloc]) (by norm_num [iloc])
      (by norm_num [ret5, iloc]) (by norm_num [ret5, iloc])
      (by norm_num [killSwitchSampleResult, calculate_score,
        calculate_technicals, calculate_market_regime,
        calculate_relative_strength, iloc, get_verdict, rsiBonus])⟩

/-- Claim C7: on every successful trade-setup computation the win
probabilities satisfy 20 ≤ prob_aggro ≤ 55 and 75 ≤ prob_safe ≤ 85,
with the documented above-SMA200 boost and volatility reduction. -/
theorem claim_C7_probability_bounds (closes : List ℚ)
    (ema20 sma50 sma200 atr : Option ℚ)
    (hsucc : (calculate_trade_setup closes ema20 sma50 sma200 atr).error
        = false) :
    20 ≤ (calculate_trade_setup closes ema20 sma50 sma200 atr).prob_aggro ∧
      (calculate_trade_setup closes ema20 sma50 sma200 atr).prob_aggro ≤ 55 ∧
      75 ≤ (calculate_trade_setup closes ema20 sma50 sma200 atr).prob_safe ∧
      (calculate_trade_setup closes ema20 sma50 sma200 atr).prob_safe ≤ 85 := by
  unfold calculate_trade_setup at hsucc ⊢
  cases hc : closes.getLast? with
  | none =>
    rw [hc] at hsucc
    simp [defaultTradeSetupOnError] at hsucc
  | some p =>
    rw [hc] at hsucc
    dsimp only at hsucc ⊢
    by_cases he : p = 0 ∨ atr = some 0
    · rw [if_pos he] at hsucc
      simp [defaultTradeSetupOnError] at hsucc
    · rw [if_neg he] at hsucc ⊢
      refine ⟨?_, ?_, ?_, ?_⟩ <;> cases sma200 <;> cases atr <;>
        dsimp only <;> (repeat' split) <;> omega

/-- Witness for C7 on a minimal one-bar series. -/
theorem claim_C7_probability_bounds_witness :
    ((calculate_trade_setup [(1 : ℚ)] none none none none).error = false) ∧
      (20 ≤ (calculate_trade_setup [(1 : ℚ)] none none none none).prob_aggro ∧
        (calculate_trade_setup [(1 : ℚ)] none none none none).prob_aggro ≤ 55 ∧
        75 ≤ (calculate_trade_setup [(1 : ℚ)] none none none none).prob_safe ∧
        (calculate_trade_setup [(1 : ℚ)] none none none none).prob_safe ≤ 85) :=
  ⟨by norm_num [calculate_trade_setup, round1, rndHalfEven]; simp,
    claim_C7_probability_bounds [(1 : ℚ)] none none none none
      (by norm_num [calculate_trade_setup, round1, rndHalfEven]; simp)⟩

/-- Claim C8: whenever an internal computation of the trade-setup
calculator fails (empty series at the last-bar lookup, a zero last
close or a zero ATR in the divisions), the calculator returns the
fully-shaped default structure with the error field populated instead
of propagating the failure. -/
theorem claim_C8_trade_setup_error_default (closes : List ℚ)
    (ema20 sma50 sma200 atr : Option ℚ)
    (herr : closes.getLast? = none ∨ closes.getLast? = some 0 ∨ atr = some 0) :
    calculate_trade_setup closes ema20 sma50 sma200 atr
        = defaultTradeSetupOnError ∧
      (calculate_trade_setup closes ema20 sma50 sma200 atr).error = true := by
  have hmain : calculate_trade_setup closes ema20 sma50 sma200 atr
      = defaultTradeSetupOnError := by
    unfold calculate_trade_setup
    rcases herr with h | h | h
    · rw [h]
    · rw [h]
      dsimp only
      rw [if_pos (Or.inl rfl)]
    · cases hc : closes.getLast? with
      | none => rfl
      | some p =>
        dsimp only
        rw [if_pos (Or.inr h)]
  exact ⟨hmain, by rw [hmain]; rfl⟩

/-- Witness for C8 on the empty series. -/
theorem claim_C8_trade_setup_error_default_witness :
    (([] : List ℚ).getLast? = none ∨ ([] : List ℚ).getLast? = some 0 ∨
        (none : Option ℚ) = some 0) ∧
      (calculate_trade_setup [] none none none none
          = defaultTradeSetupOnError ∧
        (calculate_trade_setup [] none none none none).error = true) :=
  ⟨Or.inl rfl,
    claim_C8_trade_setup_error_default [] none none none none (Or.inl rfl)⟩

/-- Characterization of the relative-strength except branch: when the
internal-error flag is set, the factor returned score 0 and did not
trigger the kill switch. -/
lemma calculate_relative_strength_error_shape (stock spy : List ℚ)
    (herr : (calculate_relative_strength stock spy).2.2 = true) :
    calculate_relative_strength stock spy = (0, false, true) := by
  unfold calculate_relative_strength at herr ⊢
  dsimp only at herr ⊢
  split_ifs at herr ⊢ <;> simp_all

/-- Claim C10: if the relative-strength computation fails internally
(for example a series shorter than 6 bars), the factor yields score 0
with the kill switch off, and the aggregator proceeds on the normal
path with relative strength contributing 0 to the composite. -/
theorem claim_C10_rel_strength_error_neutral (stock spy : List ℚ)
    (sma200 ema20 rsi sma50stk atr spySma50 vix : Option ℚ) (r : ScoreResult)
    (herr : (calculate_relative_strength stock spy).2.2 = true)
    (hr : calculate_score stock spy sma200 ema20 rsi sma50stk atr spySma50 vix
        = some r) :
    (calculate_relative_strength stock spy).1 = 0 ∧
      (calculate_relative_strength stock spy).2.1 = false ∧
      r.reasonSet = false ∧ r.relative_strength = 0 ∧
      r.score = r.technicals + r.market_regime := by
  have hrel := calculate_relative_strength_error_shape stock spy herr
  refine ⟨by rw [hrel], by rw [hrel], ?_⟩
  unfold calculate_score at hr
  cases hc : stock.getLast? with
  | none =>
    rw [hc] at hr
    cases hr
  | some p =>
    rw [hc] at hr
    dsimp only at hr
    rw [hrel] at hr
    simp only [Bool.false_eq_true, if_false, Option.some.injEq] at hr
    subst hr
    exact ⟨rfl, rfl, by dsimp only; omega⟩

/-- The concrete trade setup of a one-bar all-ones series, used in
the C10 witness result. -/
def oneBarSetup : TradeSetup :=
  { buy_min := 49/50, buy_max := 51/50, sell_stop := 23/25,
    target_safe := 26/25, target_safe_pct := 4, target_aggro := 11/10,
    target_aggro_pct := 10, prob_safe := 75, prob_aggro := 40,
    volatility_supported := true, recommended := "safe", error := false }

/-- The concrete aggregator result of an all-ones fixture, used to
witness C10 and the amended C1. -/
def flatSampleResult : ScoreResult :=
  { score := 25, verdict := "AVOID", reasonSet := false, technicals := 25,
    market_regime := 0, relative_strength := 0, current_price := 1,
    trade_setup := some oneBarSetup }

/-- Witness for C10: a one-bar ticker series (too short for the 5-bar
return) against a six-bar proxy. -/
theorem claim_C10_rel_strength_error_neutral_witness :
    ((calculate_relative_strength [(1 : ℚ)] [1, 1, 1, 1, 1, 1]).2.2 = true) ∧
      (calculate_score [(1 : ℚ)] [1, 1, 1, 1, 1, 1]
          none none none none none none none = some flatSampleResult) ∧
      ((calculate_relative_strength [(1 : ℚ)] [1, 1, 1, 1, 1, 1]).1 = 0 ∧
        (calculate_relative_strength [(1 : ℚ)] [1, 1, 1, 1, 1, 1]).2.1
            = false ∧
        flatSampleResult.reasonSet = false ∧
        flatSampleResult.relative_strength = 0 ∧
        flatSampleResult.score =
          flatSampleResult.technicals
            + flatSampleResult.market_regime) :=
  ⟨by norm_num [calculate_relative_strength],
    by norm_num [flatSampleResult, oneBarSetup, calculate_score,
      calculate_technicals, calculate_market_regime,
      calculate_relative_strength, calculate_trade_setup, iloc, get_verdict,
      rsiBonus, round1, rndHalfEven]; simp,
    claim_C10_rel_strength_error_neutral [(1 : ℚ)] [1, 1, 1, 1, 1, 1]
      none none none none none none none flatSampleResult
      (by norm_num [calculate_relative_strength])
      (by norm_num [flatSampleResult, oneBarSetup, calculate_score,
        calculate_technicals, calculate_market_regime,
        calculate_relative_strength, calculate_trade_setup, iloc, get_verdict,
        rsiBonus, round1, rndHalfEven]; simp)⟩

/-- Counterexample to C1 as stated: a fully aligned uptrend, leader,
low-VIX input makes the composite 100 + 30 + 20 = 150, outside
[0, 100]. -/
theorem claim_C1_counterexample :
    ((calculate_score [100, 100, 100, 100, 100, 101]
          [100, 100, 100, 100, 100, 201/2] (some 100) (some 101) (some 40)
          none none (some 90) (some 15)).map ScoreResult.score
        = some 150) ∧
      ¬ ((150 : ℤ) ≤ 100) := by
  constructor
  · norm_num [calculate_score, calculate_technicals, calculate_market_regime,
      calculate_relative_strength, calculate_trade_setup, iloc, get_verdict,
      rsiBonus, emaBonus, round1, rndHalfEven]
  · norm_num

/-- Claim C1 (amended): for every non-kill-switch invocation the final
composite equals technicals + regime + relative strength and lies in
[0, 150] (the sub-bounds are 100, 30 and 20, and the aggregator adds
them without any further cap). -/
theorem claim_C1_amended_sum_and_range (stock spy : List ℚ)
    (sma200 ema20 rsi sma50stk atr spySma50 vix : Option ℚ) (r : ScoreResult)
    (hr : calculate_score stock spy sma200 ema20 rsi sma50stk atr spySma50 vix
        = some r)
    (hnk : r.reasonSet = false) :
    r.score = r.technicals + r.market_regime + r.relative_strength ∧
      0 ≤ r.score ∧ r.score ≤ 150 := by
  unfold calculate_score at hr
  cases hc : stock.getLast? with
  | none =>
    rw [hc] at hr
    cases hr
  | some p =>
    rw [hc] at hr
    dsimp only at hr
    by_cases hk : (calculate_relative_strength stock spy).2.1 = true
    · rw [if_pos hk] at hr
      simp only [Option.some.injEq] at hr
      subst hr
      cases hnk
    · rw [if_neg hk] at hr
      simp only [Option.some.injEq] at hr
      subst hr
      have ht := calculate_technicals_score_bounds stock sma200 ema20 rsi
      have hg := calculate_market_regime_bounds spy spySma50 vix
      have hrel := calculate_relative_strength_fst stock spy
      refine ⟨rfl, ?_, ?_⟩ <;> dsimp only <;> rcases hrel with h | h <;> omega

/-- Witness for the amended C1 on an all-ones fixture. -/
theorem claim_C1_amended_sum_and_range_witness :
    (calculate_score [1, 1, 1, 1, 1, 1] [1, 1, 1, 1, 1, 1]
        none none none none none none none = some flatSampleResult) ∧
      (flatSampleResult.reasonSet = false) ∧
      (flatSampleResult.score = flatSampleResult.technicals
          + flatSampleResult.market_regime
          + flatSampleResult.relative_strength ∧
        0 ≤ flatSampleResult.score ∧ flatSampleResult.score ≤ 150) :=
  ⟨by norm_num [flatSampleResult, oneBarSetup, calculate_score,
      calculate_technicals, calculate_market_regime,
      calculate_relative_strength, calculate_trade_setup, iloc, get_verdict,
      rsiBonus, round1, rndHalfEven]; simp,
    rfl,
    claim_C1_amended_sum_and_range [1, 1, 1, 1, 1, 1] [1, 1, 1, 1, 1, 1]
      none none none none none none none flatSampleResult
      (by norm_num [flatSampleResult, oneBarSetup, calculate_score,
        calculate_technicals, calculate_market_regime,
        calculate_relative_strength, calculate_trade_setup, iloc, get_verdict,
        rsiBonus, round1, rndHalfEven]; simp)
      rfl⟩

/-- A safe-target percentage rounded below 10 forces the safe target
under the +10% aggressive target, for a positive last close. -/
lemma target_lt_of_round1_lt (p ts : ℚ) (hp : 0 < p)
    (hpct : round1 ((ts - p) / p * 100) < 10) : ts < p * (110/100) := by
  unfold round1 at hpct
  have h99 : rndHalfEven ((ts - p) / p * 100 * 10) ≤ 99 := by
    by_contra hcon
    have h100 : (100 : ℤ) ≤ rndHalfEven ((ts - p) / p * 100 * 10) := by omega
    have hc : (100 : ℚ) ≤ (rndHalfEven ((ts - p) / p * 100 * 10) : ℚ) := by
      exact_mod_cast h100
    linarith
  have hlt := lt_of_rndHalfEven_le ((ts - p) / p * 100 * 10) 99 h99
  have hlt2 : (ts - p) / p * 100 * 10 < 100 := by push_cast at hlt; linarith
  have hu : (ts - p) / p < 1 / 10 := by linarith
  have hf := (div_lt_iff₀ hp).mp hu
  linarith

/-- Counterexample to C3 as stated: with the last close at 100, the 20
EMA at 100 and the 200 SMA at 200, the calculator succeeds but places
the stop (198, just under the 200 SMA) above the entry zone (98). -/
theorem claim_C3_counterexample :
    ((calculate_trade_setup [100] (some 100) none (some 200) (some 1)).error
        = false) ∧
      ¬ ((calculate_trade_setup [100] (some 100) none
            (some 200) (some 1)).sell_stop <
          (calculate_trade_setup [100] (some 100) none
            (some 200) (some 1)).buy_min) := by
  constructor <;>
    norm_num [calculate_trade_setup, round1, rndHalfEven]

/-- Claim C3 (amended): the full ordering sell_stop < buy_min <
buy_max < target_safe < target_aggro holds on the indicator-free
fallback path for a positive last close; and on every succeeding
invocation with a positive last close, target_safe < target_aggro
whenever the returned target_safe_pct is below 10. -/
theorem claim_C3_amended_ordering (closes : List ℚ)
    (ema20 sma50 sma200 atr : Option ℚ) (p : ℚ)
    (h : closes.getLast? = some p) (hp : 0 < p) :
    ((calculate_trade_setup closes none none none none).sell_stop <
        (calculate_trade_setup closes none none none none).buy_min ∧
      (calculate_trade_setup closes none none none none).buy_min <
        (calculate_trade_setup closes none none none none).buy_max ∧
      (calculate_trade_setup closes none none none none).buy_max <
        (calculate_trade_setup closes none none none none).target_safe ∧
      (calculate_trade_setup closes none none none none).target_safe <
        (calculate_trade_setup closes none none none none).target_aggro) ∧
    ((calculate_trade_setup closes ema20 sma50 sma200 atr).error = false →
      (calculate_trade_setup closes ema20 sma50 sma200 atr).target_safe_pct
          < 10 →
      (calculate_trade_setup closes ema20 sma50 sma200 atr).target_safe <
        (calculate_trade_setup closes ema20 sma50 sma200 atr).target_aggro) := by
  constructor
  · unfold calculate_trade_setup
    rw [h]
    dsimp only
    rw [if_neg (by push_neg; exact ⟨ne_of_gt hp, by simp⟩ :
          ¬ (p = 0 ∨ (none : Option ℚ) = some 0))]
    refine ⟨?_, ?_, ?_, ?_⟩ <;> dsimp only <;> linarith
  · intro herr hpct
    unfold calculate_trade_setup at herr hpct ⊢
    rw [h] at herr hpct ⊢
    dsimp only at herr hpct ⊢
    by_cases he : p = 0 ∨ atr = some 0
    · rw [if_pos he] at herr
      simp [defaultTradeSetupOnError] at herr
    · rw [if_neg he] at herr hpct ⊢
      dsimp only at hpct ⊢
      exact target_lt_of_round1_lt p _ hp hpct

/-- Witness for the amended C3 on a one-bar all-ones fixture. -/
theorem claim_C3_amended_ordering_witness :
    (([(1 : ℚ)].getLast? = some 1) ∧ ((0 : ℚ) < 1)) ∧
      (((calculate_trade_setup [(1 : ℚ)] none none none none).sell_stop <
          (calculate_trade_setup [(1 : ℚ)] none none none none).buy_min ∧
        (calculate_trade_setup [(1 : ℚ)] none none none none).buy_min <
          (calculate_trade_setup [(1 : ℚ)] none none none none).buy_max ∧
        (calculate_trade_setup [(1 : ℚ)] none none none none).buy_max <
          (calculate_trade_setup [(1 : ℚ)] none none none none).target_safe ∧
        (calculate_trade_setup [(1 : ℚ)] none none none none).target_safe <
          (calculate_trade_setup [(1 : ℚ)] none none none none).target_aggro) ∧
      ((calculate_trade_setup [(1 : ℚ)] none none none none).error = false →
        (calculate_trade_setup [(1 : ℚ)] none none none
            none).target_safe_pct < 10 →
        (calculate_trade_setup [(1 : ℚ)] none none none none).target_safe <
          (calculate_trade_setup [(1 : ℚ)] none none none
            none).target_aggro)) :=
  ⟨⟨by decide, by norm_num⟩,
    claim_C3_amended_ordering [(1 : ℚ)] none none none none 1
      (by decide) (by norm_num)⟩

/-- Counterexample to C4 as stated: at sentiment −10 and engine score
0 the adjusted score is 0, where the calling layer says "STRONG SELL"
but the engine verdict function says "AVOID". -/
theorem claim_C4_counterexample :
    appAiPoints (-10) = 0 ∧ appAdjustedScore 0 (-10) = 0 ∧
      appVerdict false (appAdjustedScore 0 (-10)) = "STRONG SELL" ∧
      get_verdict (appAdjustedScore 0 (-10)) false = "AVOID" ∧
      appVerdict false (appAdjustedScore 0 (-10)) ≠
        get_verdict (appAdjustedScore 0 (-10)) false := by
  have h : appAiPoints (-10) = 0 := by
    norm_num [appAiPoints, rndHalfEven]
  have h2 : appAdjustedScore 0 (-10) = 0 := by
    rw [appAdjustedScore, h]
    norm_num
  refine ⟨h, h2, ?_, ?_, ?_⟩ <;> rw [h2] <;> simp [appVerdict, get_verdict]

/-- Claim C4 (amended): the sentiment adjustment is the linear rounded
mapping clamped to [0, 10] (the clamp is a no-op on −10..10), the
adjusted composite is capped at 100, and the calling-layer verdict
agrees with the engine verdict exactly on adjusted scores ≥ 20; below
20 the calling layer says "STRONG SELL" where the engine says
"AVOID". -/
theorem claim_C4_amended_verdict (e s : ℤ) (hs1 : -10 ≤ s) (hs2 : s ≤ 10) :
    appAiPoints s = rndHalfEven (((s : ℚ) + 10) / 20 * 10) ∧
      0 ≤ appAiPoints s ∧ appAiPoints s ≤ 10 ∧
      appAdjustedScore e s ≤ 100 ∧
      (20 ≤ appAdjustedScore e s →
        appVerdict false (appAdjustedScore e s)
          = get_verdict (appAdjustedScore e s) false) ∧
      (appAdjustedScore e s < 20 →
        appVerdict false (appAdjustedScore e s) = "STRONG SELL" ∧
          get_verdict (appAdjustedScore e s) false = "AVOID") := by
  have hx0 : (0 : ℚ) ≤ ((s : ℚ) + 10) / 20 * 10 := by
    have : (-10 : ℚ) ≤ (s : ℚ) := by exact_mod_cast hs1
    linarith
  have hx10 : ((s : ℚ) + 10) / 20 * 10 ≤ (10 : ℤ) := by
    have : (s : ℚ) ≤ 10 := by exact_mod_cast hs2
    push_cast
    linarith
  have hr0 : (0 : ℤ) ≤ rndHalfEven (((s : ℚ) + 10) / 20 * 10) :=
    le_rndHalfEven_of_le _ 0 (by exact_mod_cast hx0)
  have hr10 : rndHalfEven (((s : ℚ) + 10) / 20 * 10) ≤ 10 :=
    rndHalfEven_le_of_le _ 10 hx10
  have hpts : appAiPoints s = rndHalfEven (((s : ℚ) + 10) / 20 * 10) := by
    unfold appAiPoints
    omega
  refine ⟨hpts, by unfold appAiPoints; omega, by unfold appAiPoints; omega,
    by unfold appAdjustedScore; omega, ?_, ?_⟩
  · intro h20
    unfold appVerdict get_verdict
    split_ifs <;> rfl
  · intro h20
    constructor
    · unfold appVerdict
      split_ifs <;> first | rfl | omega | simp_all
    · unfold get_verdict
      split_ifs <;> first | rfl | omega | simp_all

/-- Witness for the amended C4 at sentiment −10 and engine score 0. -/
theorem claim_C4_amended_verdict_witness :
    ((-10 : ℤ) ≤ -10) ∧ ((-10 : ℤ) ≤ 10) ∧
      (appAiPoints (-10) = rndHalfEven ((((-10 : ℤ) : ℚ) + 10) / 20 * 10) ∧
        0 ≤ appAiPoints (-10) ∧ appAiPoints (-10) ≤ 10 ∧
        appAdjustedScore 0 (-10) ≤ 100 ∧
        (20 ≤ appAdjustedScore 0 (-10) →
          appVerdict false (appAdjustedScore 0 (-10))
            = get_verdict (appAdjustedScore 0 (-10)) false) ∧
        (appAdjustedScore 0 (-10) < 20 →
          appVerdict false (appAdjustedScore 0 (-10)) = "STRONG SELL" ∧
            get_verdict (appAdjustedScore 0 (-10)) false = "AVOID")) :=
  ⟨by norm_num, by norm_num,
    claim_C4_amended_verdict 0 (-10) (by norm_num) (by norm_num)⟩

end SwingScore
